import Mathlib

/-!
Verification of the Query Orchestration and Resilience Layer of the
community-research server (`community_research_mcp.py`).

Python strings are embedded as `List Char` (`Str`), Python dicts keyed by
strings as association lists, and `time.time()` observations as explicit
integer parameters (the source only subtracts and order-compares times, so
integer-valued seconds preserve every branch).  Fallible external calls
(search backends, LLM providers) are passed in as `Except`-valued outcomes;
everything else is translated directly from the source.
-/

namespace CommunityResearch

/-- Python strings are modelled as lists of characters. -/
abbrev Str := List Char

/-- Embed a Lean string literal as a `Str`. -/
def str (s : String) : Str := s.data

/-! ### Association-list dictionaries (Python `dict` keyed by strings) -/

/-- Lookup in a Python dict: first binding for the key, if any. -/
def dict_get {α : Type} (m : List (Str × α)) (k : Str) : Option α :=
  match m with
  | [] => none
  | kv :: rest => if kv.1 = k then some kv.2 else dict_get rest k

/-- Python `del d[k]`: remove every binding for the key. -/
def dict_del {α : Type} (m : List (Str × α)) (k : Str) : List (Str × α) :=
  match m with
  | [] => []
  | kv :: rest => if kv.1 = k then dict_del rest k else kv :: dict_del rest k

/-- Python `d[k] = v`: replace any existing binding for the key. -/
def dict_set {α : Type} (m : List (Str × α)) (k : Str) (v : α) : List (Str × α) :=
  (k, v) :: dict_del m k

/-! ### Constants (`community_research_mcp.py`, lines 44-49) -/

def CHARACTER_LIMIT : Nat := 25000
def MAX_RETRIES : Nat := 3
def CACHE_TTL_SECONDS : Int := 3600
def RATE_LIMIT_WINDOW : Int := 60
def RATE_LIMIT_MAX_CALLS : Nat := 10

/-! ### Cache (`get_cached_result` / `set_cached_result`, lines 266-282) -/

/-- One entry of the global `_cache` dict: `{'result': ..., 'timestamp': ...}`. -/
structure CacheEntry where
  result : Str
  timestamp : Int
deriving DecidableEq, Repr

/-- The global `_cache` dict, keyed by cache key. -/
abbrev Cache := List (Str × CacheEntry)

/-- Source lines 266-274.  `now` is the value of the `time.time()` call inside
the function.  Returns the cached payload (if present and fresh) together with
the cache after the lazy-expiry deletion. -/
def get_cached_result (cache : Cache) (now : Int) (cache_key : Str) : Option Str × Cache :=
  match dict_get cache cache_key with
  | some cached =>
      if now - cached.timestamp < CACHE_TTL_SECONDS then (some cached.result, cache)
      else (none, dict_del cache cache_key)
  | none => (none, cache)

/-- Source lines 277-282.  `now` is the `time.time()` observation. -/
def set_cached_result (cache : Cache) (now : Int) (cache_key : Str) (result : Str) : Cache :=
  dict_set cache cache_key { result := result, timestamp := now }

/-! ### Rate limiter (`check_rate_limit`, lines 285-306) -/

/-- The global `_rate_limit_tracker` dict: per tool name, the list of admitted
call timestamps. -/
abbrev RateTracker := List (Str × List Int)

/-- Source lines 285-306.  `now` is the `time.time()` observation.  Returns
the admission verdict and the tracker after the pruning/append mutations. -/
def check_rate_limit (tracker : RateTracker) (now : Int) (tool_name : Str) :
    Bool × RateTracker :=
  let ts := (dict_get tracker tool_name).getD []
  let pruned := ts.filter (fun t => now - t < RATE_LIMIT_WINDOW)
  if RATE_LIMIT_MAX_CALLS ≤ pruned.length then
    (false, dict_set tracker tool_name pruned)
  else
    (true, dict_set tracker tool_name (pruned ++ [now]))

/-- Helper for the sliding-window scenario: run a sequence of
`check_rate_limit` calls for one tool at the given times, collecting the
admission verdicts. -/
def run_rate_calls (tool_name : Str) : List Int → RateTracker → List Bool × RateTracker
  | [], tracker => ([], tracker)
  | t :: ts, tracker =>
      let r := check_rate_limit tracker t tool_name
      let rest := run_rate_calls tool_name ts r.2
      (r.1 :: rest.1, rest.2)

/-- Closed form for a fresh-window run: starting from a window holding `c`
fresh timestamps, each call is admitted exactly while the count is below the
budget. -/
def rate_expected : Nat → Nat → List Bool
  | _, 0 => []
  | c, n + 1 =>
      decide (c < RATE_LIMIT_MAX_CALLS) ::
        rate_expected (if c < RATE_LIMIT_MAX_CALLS then c + 1 else c) n

/-! ### Python string helpers -/

/-- Python `str.lower()` (character-wise, as used on ASCII input). -/
def pyLower (s : Str) : Str := s.map Char.toLower

/-- Python `str.strip()`: drop whitespace from both ends. -/
def pyStrip (s : Str) : Str :=
  ((s.dropWhile Char.isWhitespace).reverse.dropWhile Char.isWhitespace).reverse

/-- Worker for `pySplit`; the accumulator holds the current word reversed. -/
def pySplitAux : Str → Str → List Str
  | [], acc => if acc = [] then [] else [acc.reverse]
  | c :: rest, acc =>
      if c.isWhitespace then
        if acc = [] then pySplitAux rest [] else acc.reverse :: pySplitAux rest []
      else pySplitAux rest (c :: acc)

/-- Python `str.split()` with no argument: split on whitespace runs,
discarding empty pieces. -/
def pySplit (s : Str) : List Str := pySplitAux s []

/-- Does `hay` start with `pre`? -/
def str_starts : Str → Str → Bool
  | _, [] => true
  | [], _ :: _ => false
  | c :: cs, d :: ds => decide (c = d) && str_starts cs ds

/-- Python `needle in hay` (substring containment). -/
def str_has : Str → Str → Bool
  | [], needle => str_starts [] needle
  | c :: cs, needle => str_starts (c :: cs) needle || str_has cs needle

/-- Decimal rendering of a natural number, as Python `str`/f-strings do. -/
def natStr (n : Nat) : Str := (toString n).data

/-- Decimal rendering of an integer, as Python `str`/f-strings do. -/
def intStr (n : Int) : Str := (toString n).data

/-! ### Validator (`validate_topic_specificity`, lines 112-136) -/

/-- Source lines 119-124: the fixed list of vague terms. -/
def vague_terms : List Str :=
  [str "settings", str "configuration", str "config", str "setup", str "performance",
   str "optimization", str "best practices", str "how to", str "tutorial",
   str "getting started", str "basics", str "help", str "issue", str "problem",
   str "error", str "debugging", str "install", str "installation"]

/-- Source lines 129-134: the ValueError message raised for a vague topic. -/
def vague_topic_message (v : Str) : Str :=
  str "Topic '" ++ v ++
  str "' is too vague. Be more specific! Instead of 'settings', say 'GUI settings dialog with tabs and save/load buttons'. Instead of 'performance', say 'reduce Docker image size with multi-stage builds'. Include specific technologies, libraries, or patterns you're interested in."

/-- Source lines 112-136: reject a topic when, after stripping, it has at
most two words and some vague term occurs (as a substring, via Python `in`)
in the lowercased topic. -/
def validate_topic_specificity (v : Str) : Except Str Str :=
  let v := pyStrip v
  let words := pySplit (pyLower v)
  if words.length ≤ 2 ∧ vague_terms.any (fun term => str_has (pyLower v) term) then
    .error (vague_topic_message v)
  else
    .ok v

/-! ### Source aggregation (`aggregate_search_results`, lines 477-493) -/

/-- One normalized search hit (the dict shape built by the four backend
search functions; only the fields, not the wire formats, matter here). -/
structure SourceResult where
  title : Str
  url : Str
  snippet : Str
  score : Int := 0
  comments : Int := 0
deriving DecidableEq, Repr

/-- The aggregated dict of per-source result lists (lines 488-493). -/
structure SearchResults where
  stackoverflow : List SourceResult
  github : List SourceResult
  reddit : List SourceResult
  hackernews : List SourceResult
deriving DecidableEq, Repr

/-- Outcome of one backend task as seen by `asyncio.gather(...,
return_exceptions=True)`: either a result list or a raised exception
(timeouts and malformed responses raise inside the backend and are already
converted there; any escaping exception is captured here). -/
structure BackendOutcomes where
  stackoverflow : Except Str (List SourceResult)
  github : Except Str (List SourceResult)
  reddit : Except Str (List SourceResult)
  hackernews : Except Str (List SourceResult)

/-- Lines 489-492: `results[i] if isinstance(results[i], list) else []`. -/
def backend_result_list : Except Str (List SourceResult) → List SourceResult
  | .ok l => l
  | .error _ => []

/-- Source lines 477-493: fan out to the four backends and keep each
backend's list, replacing a raised exception by an empty list. -/
def aggregate_search_results (o : BackendOutcomes) : SearchResults :=
  { stackoverflow := backend_result_list o.stackoverflow
    github := backend_result_list o.github
    reddit := backend_result_list o.reddit
    hackernews := backend_result_list o.hackernews }

/-- Line 874: `sum(len(results) for results in search_results.values())`. -/
def total_results (sr : SearchResults) : Nat :=
  sr.stackoverflow.length + sr.github.length + sr.reddit.length + sr.hackernews.length

/-! ### JSON serialization helpers

The source emits payloads with `json.dumps(..., indent=2)` (and
`json.dumps(params, sort_keys=True)` for cache keys).  The dict shapes are
statically known at every dump site, so serialization is embedded as
string-building functions producing exactly what `json.dumps` prints for
those shapes. -/

/-- JSON escaping of one character (the inputs in this program are ASCII;
`json.dumps` escapes the quote, backslash and control characters). -/
def json_escape_char (c : Char) : Str :=
  if c = '"' then ['\\', '"']
  else if c = '\\' then ['\\', '\\']
  else if c = '\n' then ['\\', 'n']
  else if c = '\t' then ['\\', 't']
  else if c = '\r' then ['\\', 'r']
  else [c]

/-- JSON escaping of a string body. -/
def json_escape (s : Str) : Str := s.flatMap json_escape_char

/-- A JSON string literal: `"..."` with the body escaped. -/
def json_str (s : Str) : Str := str "\"" ++ json_escape s ++ str "\""

/-- A JSON string-or-null value (for Python `Optional[str]`). -/
def json_opt_str : Option Str → Str
  | some s => json_str s
  | none => str "null"

/-- Join pieces with a separator (Python `sep.join`). -/
def join_sep (sep : Str) : List Str → Str
  | [] => []
  | [s] => s
  | s :: t :: rest => s ++ sep ++ join_sep sep (t :: rest)

/-- Python `"\n".join(lines)`. -/
def join_nl (lines : List Str) : Str := join_sep (str "\n") lines

/-- One `"key": value` line of a `json.dumps(..., indent=2)` object, at the
given indentation. -/
def json_kv_line (ind : Str) (kv : Str × Str) : Str :=
  ind ++ str "\"" ++ kv.1 ++ str "\": " ++ kv.2

/-- `json.dumps(..., indent=2)` rendering of an object whose member values
are already rendered; `ind` is the member indentation and `close_ind` the
indentation of the closing brace. -/
def dump_obj (ind close_ind : Str) (fields : List (Str × Str)) : Str :=
  match fields with
  | [] => str "\x7b\x7d"
  | _ =>
      str "\x7b\n" ++ join_sep (str ",\n") (fields.map (json_kv_line ind)) ++
      str "\n" ++ close_ind ++ str "\x7d"

/-- `json.dumps(..., indent=2)` rendering of an array whose items are
already rendered. -/
def dump_arr (ind close_ind : Str) (items : List Str) : Str :=
  match items with
  | [] => str "[]"
  | _ =>
      str "[\n" ++ join_sep (str ",\n") (items.map (fun it => ind ++ it)) ++
      str "\n" ++ close_ind ++ str "]"

/-! ### Cache key (`get_cache_key`, lines 260-263) -/

/-- The keyword arguments passed to `get_cache_key` at the call site in
`community_search` (lines 850-856). -/
structure CacheKeyParams where
  language : Str
  topic : Str
  goal : Option Str
  current_setup : Option Str
deriving DecidableEq

/-- Source lines 260-263.  `param_str` is
`json.dumps(params, sort_keys=True)`: the four keys in alphabetical order
(`current_setup`, `goal`, `language`, `topic`), compact separators.  The
source then hashes `f"{tool_name}:{param_str}"` with md5; md5 is a fixed
deterministic function of that string, so equal strings always give equal
keys, and the pre-image string is used as the embedded key. -/
def get_cache_key (tool_name : Str) (params : CacheKeyParams) : Str :=
  let param_str :=
    str "\x7b\"current_setup\": " ++ json_opt_str params.current_setup ++
    str ", \"goal\": " ++ json_opt_str params.goal ++
    str ", \"language\": " ++ json_str params.language ++
    str ", \"topic\": " ++ json_str params.topic ++ str "\x7d"
  tool_name ++ str ":" ++ param_str

/-! ### Input model (`CommunitySearchInput`, lines 59-136) -/

/-- Source lines 59-62: output format for tool responses. -/
inductive ResponseFormat where
  | markdown
  | json
deriving DecidableEq, Repr

/-- Source lines 69-110: the validated input of `community_search`
(pydantic length bounds are side conditions of the claims, the topic
specificity check is `validate_topic_specificity`). -/
structure CommunitySearchInput where
  language : Str
  topic : Str
  goal : Option Str := none
  current_setup : Option Str := none
  response_format : ResponseFormat := ResponseFormat.markdown
deriving DecidableEq

/-- The cache key computed at lines 850-856: note that `response_format` is
not among the parameters passed to `get_cache_key`. -/
def community_search_cache_key (p : CommunitySearchInput) : Str :=
  get_cache_key (str "community_search")
    { language := p.language, topic := p.topic, goal := p.goal,
      current_setup := p.current_setup }

/-! ### LLM provider selection and synthesis (lines 313-331, 500-577) -/

inductive Provider where
  | gemini
  | openai
  | anthropic
  | openrouter
  | perplexity
deriving DecidableEq, Repr

/-- The five optional credentials read from the environment (lines 319-325). -/
structure ApiKeys where
  gemini : Option Str := none
  openai : Option Str := none
  anthropic : Option Str := none
  openrouter : Option Str := none
  perplexity : Option Str := none

/-- Lines 327-331: first provider whose key is truthy and strips to a
non-empty string (`if key and key.strip()`). -/
def first_usable : List (Provider × Option Str) → Option (Provider × Str)
  | [] => none
  | (p, k) :: rest =>
      match k with
      | some key => if key ≠ [] ∧ pyStrip key ≠ [] then some (p, key) else first_usable rest
      | none => first_usable rest

/-- Source lines 313-331: priority Gemini > OpenAI > Anthropic >
OpenRouter > Perplexity. -/
def get_available_llm_provider (keys : ApiKeys) : Option (Provider × Str) :=
  first_usable
    [(Provider.gemini, keys.gemini), (Provider.openai, keys.openai),
     (Provider.anthropic, keys.anthropic), (Provider.openrouter, keys.openrouter),
     (Provider.perplexity, keys.perplexity)]

/-- One synthesized finding as parsed from the provider's JSON reply.  An
absent optional field models an absent dict key (the renderers apply the
`dict.get` defaults). -/
structure Finding where
  title : Option Str := none
  problem : Option Str := none
  solution : Option Str := none
  benefit : Option Str := none
  evidence : Option Str := none
  difficulty : Option Str := none
  community_score : Option Int := none
  gotchas : Option Str := none
deriving DecidableEq

/-- The dict returned by `synthesize_with_llm`: an optional `error` entry
plus a `findings` list (absent key modelled as `[]`/`none`). -/
structure SynthParsed where
  error : Option Str := none
  findings : List Finding := []
deriving DecidableEq

/-- Line 513: the error message when no provider credential is configured. -/
def no_provider_message : Str :=
  str "No LLM API key configured. Please set GEMINI_API_KEY, OPENAI_API_KEY, or ANTHROPIC_API_KEY in your .env file."

/-- Source lines 500-577.  `call_outcome` is the outcome of the selected
`call_*` coroutine: `.ok` a parsed reply, or `.error` for any exception it
raises - an HTTP failure or, in particular, `json.loads` failing on a
malformed reply (lines 604, 634, 664, 693, 722).  That exception is caught
by the `except` at line 576 and turned into an error-annotated dict; it is
never re-raised. -/
def synthesize_with_llm (keys : ApiKeys) (call_outcome : Except Str SynthParsed) :
    SynthParsed :=
  match get_available_llm_provider keys with
  | none => { error := some no_provider_message, findings := [] }
  | some _ =>
      match call_outcome with
      | .ok parsed => parsed
      | .error e => { error := some (str "LLM synthesis failed: " ++ e), findings := [] }

/-! ### Rendering (`community_search`, lines 893-956) -/

/-- Lines 910-931: the block of markdown lines for one finding, with the
`dict.get` defaults from the source. -/
def finding_block (i : Nat) (f : Finding) : List Str :=
  [str "### " ++ natStr i ++ str ". " ++ (f.title.getD (str "Recommendation")),
   str "**Difficulty**: " ++ (f.difficulty.getD (str "Unknown")) ++
     str " | **Community Score**: " ++
     (match f.community_score with
      | some n => intStr n
      | none => str "N/A") ++ str "/100",
   [],
   str "**Problem**:",
   f.problem.getD (str "No problem description"),
   [],
   str "**Solution**:",
   f.solution.getD (str "No solution provided"),
   [],
   str "**Benefits**:",
   f.benefit.getD (str "No benefits listed"),
   [],
   str "**Evidence**:",
   f.evidence.getD (str "No evidence provided"),
   [],
   str "**Gotchas**:",
   f.gotchas.getD (str "None noted"),
   [],
   str "---",
   []]

/-- Lines 909-931: `for i, finding in enumerate(findings, 1)`. -/
def finding_blocks (i : Nat) : List Finding → List Str
  | [] => []
  | f :: fs => finding_block i f ++ finding_blocks (i + 1) fs

/-- Lines 893-940: markdown rendering.  The error line is emitted when the
synthesis dict has an `error` key; the recommendations and the source
summary are emitted only when `findings` is non-empty. -/
def render_markdown (p : CommunitySearchInput) (sr : SearchResults)
    (syn : SynthParsed) : Str :=
  let lines₁ := [str "# Community Research: " ++ p.topic,
                 str "**Language**: " ++ p.language,
                 ([] : Str)]
  let lines₂ := lines₁ ++
    (match syn.error with
     | some e => [str "**Error**: " ++ e, ([] : Str)]
     | none => [])
  let lines₃ := lines₂ ++
    (match syn.findings with
     | [] => []
     | _ :: _ =>
        [str "## Found " ++ natStr syn.findings.length ++ str " Recommendations",
         ([] : Str)] ++
        finding_blocks 1 syn.findings ++
        [str "## Sources Searched",
         str "- Stack Overflow: " ++ natStr sr.stackoverflow.length ++ str " results",
         str "- GitHub: " ++ natStr sr.github.length ++ str " results",
         str "- Reddit: " ++ natStr sr.reddit.length ++ str " results",
         str "- Hacker News: " ++ natStr sr.hackernews.length ++ str " results"])
  join_nl lines₃

/-- The members of one finding dict as serialized into the JSON response
(the keys the parsed finding actually has, in schema order). -/
def finding_fields (f : Finding) : List (Str × Str) :=
  (match f.title with | some s => [(str "title", json_str s)] | none => []) ++
  (match f.problem with | some s => [(str "problem", json_str s)] | none => []) ++
  (match f.solution with | some s => [(str "solution", json_str s)] | none => []) ++
  (match f.benefit with | some s => [(str "benefit", json_str s)] | none => []) ++
  (match f.evidence with | some s => [(str "evidence", json_str s)] | none => []) ++
  (match f.difficulty with | some s => [(str "difficulty", json_str s)] | none => []) ++
  (match f.community_score with | some n => [(str "community_score", intStr n)] | none => []) ++
  (match f.gotchas with | some s => [(str "gotchas", json_str s)] | none => [])

/-- One finding dict inside the `findings` array of the JSON response
(array items indented 4, member lines indented 6). -/
def dump_finding (f : Finding) : Str :=
  dump_obj (str "      ") (str "    ") (finding_fields f)

/-- The members of the JSON response dict of lines 943-955, given the
already-rendered findings array. -/
def response_fields (p : CommunitySearchInput) (total : Nat) (sr : SearchResults)
    (syn : SynthParsed) (findings : List Finding) : List (Str × Str) :=
  [(str "language", json_str p.language),
   (str "topic", json_str p.topic),
   (str "total_sources", natStr total),
   (str "findings", dump_arr (str "    ") (str "  ") (findings.map dump_finding)),
   (str "error", json_opt_str syn.error),
   (str "sources_searched",
     dump_obj (str "    ") (str "  ")
       [(str "stackoverflow", natStr sr.stackoverflow.length),
        (str "github", natStr sr.github.length),
        (str "reddit", natStr sr.reddit.length),
        (str "hackernews", natStr sr.hackernews.length)])]

/-- Lines 943-956: `json.dumps(response, indent=2)`. -/
def dump_response (p : CommunitySearchInput) (total : Nat) (sr : SearchResults)
    (syn : SynthParsed) : Str :=
  dump_obj (str "  ") [] (response_fields p total sr syn syn.findings)

/-- Line 966: the truncation annotation message. -/
def truncation_message (original_count new_count : Nat) : Str :=
  str "Response truncated from " ++ natStr original_count ++ str " to " ++
  natStr new_count ++ str " findings due to size limits."

/-- Lines 962-967: the re-dumped JSON response after halving the findings:
the original members (with the shortened findings list) followed by the two
appended keys.  `json.loads(result)` round-trips the response dict, so the
branch is computed on the structured response directly. -/
def dump_truncated_response (p : CommunitySearchInput) (total : Nat)
    (sr : SearchResults) (syn : SynthParsed) (new_findings : List Finding) : Str :=
  dump_obj (str "  ") []
    (response_fields p total sr syn new_findings ++
     [(str "truncated", str "true"),
      (str "truncation_message",
        json_str (truncation_message syn.findings.length new_findings.length))])

/-- Line 969: the fixed notice appended after hard truncation in markdown
mode. -/
def trunc_notice : Str :=
  str "\n\n[Response truncated due to size limits. Use JSON format for full data.]"

/-- Lines 893-956: format the response according to the requested format. -/
def render_result (p : CommunitySearchInput) (total : Nat) (sr : SearchResults)
    (syn : SynthParsed) : Str :=
  match p.response_format with
  | ResponseFormat.markdown => render_markdown p sr syn
  | ResponseFormat.json => dump_response p total sr syn

/-- Lines 959-969: the at-most-once size-limit corrective step. -/
def apply_truncation (p : CommunitySearchInput) (total : Nat) (sr : SearchResults)
    (syn : SynthParsed) (result : Str) : Str :=
  if CHARACTER_LIMIT < result.length then
    match p.response_format with
    | ResponseFormat.json =>
        let original_count := syn.findings.length
        let new_findings := syn.findings.take (max 1 (original_count / 2))
        dump_truncated_response p total sr syn new_findings
    | ResponseFormat.markdown => result.take CHARACTER_LIMIT ++ trunc_notice
  else result

/-! ### Error payloads of `community_search` -/

/-- Lines 845-847. -/
def rate_limit_payload : Str :=
  dump_obj (str "  ") []
    [(str "error",
      json_str (str "Rate limit exceeded. Maximum 10 requests per minute. Please wait and try again."))]

/-- Lines 876-879. -/
def no_results_payload (p : CommunitySearchInput) : Str :=
  dump_obj (str "  ") []
    [(str "error",
      json_str (str "No results found for \"" ++ p.topic ++ str "\" in " ++
        p.language ++ str ". Try different search terms or a more common topic.")),
     (str "findings", str "[]")]

/-- Lines 977-980. -/
def terminal_error_payload (e : Str) : Str :=
  dump_obj (str "  ") []
    [(str "error",
      json_str (str "Search failed after " ++ natStr MAX_RETRIES ++ str " attempts: " ++ e)),
     (str "findings", str "[]")]

/-- Line 987. -/
def unexpected_error_payload : Str :=
  dump_obj (str "  ") []
    [(str "error", json_str (str "Unexpected error")), (str "findings", str "[]")]

/-! ### Orchestrator (`community_search`, lines 799-987) -/

/-- The external effects observed by one attempt of the retry loop:
the four backend outcomes, the outcome of the provider call inside
`synthesize_with_llm`, an optional unhandled exception arising anywhere in
the attempt body before its cache write (the `except` at line 975 models
it), and the `time.time()` value of the attempt's `set_cached_result`. -/
structure AttemptEnv where
  backends : BackendOutcomes
  call_outcome : Except Str SynthParsed := .error []
  inject : Option Str := none
  tSet : Int := 0

/-- The external effects observed by one `community_search` call. -/
structure CallEnv where
  keys : ApiKeys := {}
  tNow : Int := 0
  tGet : Int := 0
  attempts : Nat → AttemptEnv

/-- Observable bookkeeping of one call: attempts entered, invocations of
`synthesize_with_llm`, and the `asyncio.sleep` durations (seconds). -/
structure Trace where
  attemptsUsed : Nat := 0
  synthCalls : Nat := 0
  sleeps : List Nat := []
deriving DecidableEq, Repr

/-- The value, cache and trace of one `community_search` call. -/
structure CommResult where
  payload : Str
  cache : Cache
  tracker : RateTracker
  trace : Trace

/-- The payload produced by the non-short-circuited path of one attempt
(lines 884-969): synthesis, rendering and the at-most-once truncation. -/
def attempt_result (p : CommunitySearchInput) (keys : ApiKeys) (e : AttemptEnv) : Str :=
  let search_results := aggregate_search_results e.backends
  let total := total_results search_results
  let synthesis := synthesize_with_llm keys e.call_outcome
  let rendered := render_result p total search_results synthesis
  apply_truncation p total search_results synthesis rendered

/-- The body of one attempt (the `try` block, lines 869-973): search,
zero-result short-circuit, synthesis, rendering, truncation and the cache
write.  `.error` is an exception reaching the `except` at line 975.  The
returned Bool records whether `synthesize_with_llm` ran. -/
def attempt_body (p : CommunitySearchInput) (keys : ApiKeys) (e : AttemptEnv)
    (cache_key : Str) (cache : Cache) : Except Str (Str × Cache × Bool) :=
  match e.inject with
  | some exc => .error exc
  | none =>
      let search_results := aggregate_search_results e.backends
      let total := total_results search_results
      if total = 0 then
        let result := no_results_payload p
        .ok (result, set_cached_result cache e.tSet cache_key result, false)
      else
        let result := attempt_result p keys e
        .ok (result, set_cached_result cache e.tSet cache_key result, true)

/-- The retry loop (lines 868-987), iterating over the attempt numbers of
`range(MAX_RETRIES)`: a successful attempt returns its payload; an
exception on the last attempt returns the terminal error payload without a
cache write; otherwise the loop sleeps `2 ** attempt` seconds and retries. -/
def search_retry_loop (p : CommunitySearchInput) (env : CallEnv) (cache_key : Str) :
    List Nat → Cache → Trace → Str × Cache × Trace
  | [], cache, tr => (unexpected_error_payload, cache, tr)
  | attempt :: rest, cache, tr =>
      let e := env.attempts attempt
      let tr := { tr with attemptsUsed := tr.attemptsUsed + 1 }
      match attempt_body p env.keys e cache_key cache with
      | .ok (result, cache', synthCalled) =>
          (result, cache',
           { tr with synthCalls := tr.synthCalls + (if synthCalled then 1 else 0) })
      | .error exc =>
          if attempt = MAX_RETRIES - 1 then
            (terminal_error_payload exc, cache, tr)
          else
            search_retry_loop p env cache_key rest cache
              { tr with sleeps := tr.sleeps ++ [2 ^ attempt] }

/-- Source lines 799-987: rate limiting, cache lookup (Python truthiness:
`if cached_result:` is taken only for a non-empty payload), then the retry
loop, threading the global cache and rate tracker explicitly. -/
def community_search (p : CommunitySearchInput) (env : CallEnv)
    (cache : Cache) (tracker : RateTracker) : CommResult :=
  let rate := check_rate_limit tracker env.tNow (str "community_search")
  if rate.1 = false then
    { payload := rate_limit_payload, cache := cache, tracker := rate.2, trace := {} }
  else
    let cache_key := community_search_cache_key p
    let looked := get_cached_result cache env.tGet cache_key
    match looked.1 with
    | some (c :: cs) =>
        { payload := c :: cs, cache := looked.2, tracker := rate.2, trace := {} }
    | _ =>
        let r := search_retry_loop p env cache_key (List.range MAX_RETRIES) looked.2 {}
        { payload := r.1, cache := r.2.1, tracker := rate.2, trace := r.2.2 }

/-! ### Concrete scenarios used by counterexamples and witnesses -/

/-- A structured-format query. -/
def c1_json_query : CommunitySearchInput :=
  { language := str "Python",
    topic := str "FastAPI background task queue with Redis",
    response_format := ResponseFormat.json }

/-- The same query with the readable output format. -/
def c1_markdown_query : CommunitySearchInput :=
  { c1_json_query with response_format := ResponseFormat.markdown }

/-- One ordinary backend hit used by the orchestration scenarios. -/
def example_source : SourceResult :=
  { title := str "How to run background tasks",
    url := str "https://stackoverflow.com/q/1", snippet := str "use a queue",
    score := 12, comments := 4 }

/-- Backend outcomes where only Stack Overflow returns (one) result. -/
def one_hit_backends : BackendOutcomes :=
  { stackoverflow := .ok [example_source], github := .ok [],
    reddit := .ok [], hackernews := .ok [] }

/-- A readable-format query for the orchestration scenarios. -/
def c2_input : CommunitySearchInput :=
  { language := str "Python",
    topic := str "FastAPI background task queue with Redis" }

/-- Call environment where the provider replies but its output fails JSON
parsing (the `json.loads` exception message) on every attempt. -/
def c2_env : CallEnv :=
  { keys := { gemini := some (str "test-key") },
    attempts := fun _ =>
      { backends := one_hit_backends,
        call_outcome := .error (str "Expecting value: line 1 column 1 (char 0)") } }

/-- A 26000-character solution string returned by the provider. -/
def c3_big_solution : Str := List.replicate 26000 'a'

/-- A finding whose solution alone exceeds the character budget. -/
def c3_finding : Finding :=
  { title := some (str "Use Celery"), difficulty := some (str "Medium"),
    community_score := some 90, solution := some c3_big_solution }

/-- A well-formed provider reply carrying the oversized finding. -/
def c3_parsed : SynthParsed := { findings := [c3_finding] }

/-- Call environment where synthesis succeeds with the oversized finding. -/
def c3_env : CallEnv :=
  { keys := { gemini := some (str "test-key") },
    attempts := fun _ =>
      { backends := one_hit_backends, call_outcome := .ok c3_parsed } }

/-- The markdown lines rendered for `c2_input` with one Stack Overflow hit
and the single oversized finding (the evaluation of `render_markdown` on
that scenario; equality with `render_markdown` is proved by `rfl`). -/
def c3_lines : List Str :=
  [str "# Community Research: FastAPI background task queue with Redis",
   str "**Language**: Python",
   str "",
   str "## Found 1 Recommendations",
   str "",
   str "### 1. Use Celery",
   str "**Difficulty**: Medium | **Community Score**: 90/100",
   str "",
   str "**Problem**:",
   str "No problem description",
   str "",
   str "**Solution**:",
   c3_big_solution,
   str "",
   str "**Benefits**:",
   str "No benefits listed",
   str "",
   str "**Evidence**:",
   str "No evidence provided",
   str "",
   str "**Gotchas**:",
   str "None noted",
   str "",
   str "---",
   str "",
   str "## Sources Searched",
   str "- Stack Overflow: 1 results",
   str "- GitHub: 0 results",
   str "- Reddit: 0 results",
   str "- Hacker News: 0 results"]

/-- Call environment where all four backends return empty lists. -/
def c4_env : CallEnv :=
  { keys := { gemini := some (str "test-key") },
    attempts := fun _ =>
      { backends := { stackoverflow := .ok [], github := .ok [],
                      reddit := .ok [], hackernews := .ok [] },
        call_outcome := .ok c3_parsed, tSet := 5 } }

/-- Call environment where every attempt raises an unhandled exception. -/
def c9_env : CallEnv :=
  { attempts := fun attempt =>
      { backends := one_hit_backends,
        inject := some (str "boom " ++ natStr attempt) } }

/-- A rate-tracker window already holding ten fresh timestamps for
`community_search`. -/
def c10_full_tracker : RateTracker :=
  [(str "community_search", [0, 1, 2, 3, 4, 5, 6, 7, 8, 9])]

/-- A cache holding a fresh payload for `c2_input`. -/
def c10_cache : Cache :=
  [(community_search_cache_key c2_input,
    { result := str "cached payload", timestamp := 0 })]

/-- Call environment (times only) for the cache-hit scenario. -/
def c10_env : CallEnv :=
  { tNow := 30, tGet := 30,
    attempts := fun _ => { backends := one_hit_backends } }

/-! ## Theorems -/

theorem dict_get_set_self {α : Type} (m : List (Str × α)) (k : Str) (v : α) :
    dict_get (dict_set m k v) k = some v := by
  simp [dict_get, dict_set]

theorem dict_get_del_self {α : Type} (m : List (Str × α)) (k : Str) :
    dict_get (dict_del m k) k = none := by
  induction m with
  | nil => simp [dict_get, dict_del]
  | cons kv rest ih =>
    by_cases h : kv.1 = k
    · simpa [dict_del, h] using ih
    · simpa [dict_del, dict_get, h] using ih

theorem run_rate_calls_fresh (tool_name : Str) :
    ∀ (times : List Int) (tracker : RateTracker) (cur : List Int),
      (dict_get tracker tool_name).getD [] = cur →
      (∀ t ∈ cur ++ times, ∀ u ∈ times, u - t < RATE_LIMIT_WINDOW) →
      (run_rate_calls tool_name times tracker).1 =
        rate_expected cur.length times.length := by
  intro times
  induction times with
  | nil => intro tracker cur _ _; simp [run_rate_calls, rate_expected]
  | cons t ts ih =>
    intro tracker cur hcur hfresh
    have hkeep : cur.filter (fun u => decide (t - u < RATE_LIMIT_WINDOW)) = cur := by
      apply List.filter_eq_self.mpr
      intro a ha
      exact decide_eq_true (hfresh a (List.mem_append_left _ ha) t (List.mem_cons_self t ts))
    by_cases hc : cur.length < RATE_LIMIT_MAX_CALLS
    · have hstep : check_rate_limit tracker t tool_name =
          (true, dict_set tracker tool_name (cur ++ [t])) := by
        simp [check_rate_limit, hcur, hkeep, Nat.not_le.mpr hc]
      have hnext : (run_rate_calls tool_name ts
          (dict_set tracker tool_name (cur ++ [t]))).1 =
          rate_expected (cur ++ [t]).length ts.length := by
        apply ih
        · simp [dict_get_set_self]
        · intro a ha u hu
          rcases List.mem_append.mp ha with h | h
          · rcases List.mem_append.mp h with h' | h'
            · exact hfresh a (List.mem_append_left _ h') u (List.mem_cons_of_mem _ hu)
            · have : a = t := by simpa using h'
              subst this
              exact hfresh a (List.mem_append_right _ (List.mem_cons_self a ts)) u
                (List.mem_cons_of_mem _ hu)
          · exact hfresh a (List.mem_append_right _ (List.mem_cons_of_mem _ h)) u
              (List.mem_cons_of_mem _ hu)
      simp [run_rate_calls, hstep, hnext, rate_expected, hc]
    · have hstep : check_rate_limit tracker t tool_name =
          (false, dict_set tracker tool_name cur) := by
        simp [check_rate_limit, hcur, hkeep, Nat.le_of_not_lt hc]
      have hnext : (run_rate_calls tool_name ts (dict_set tracker tool_name cur)).1 =
          rate_expected cur.length ts.length := by
        apply ih
        · simp [dict_get_set_self]
        · intro a ha u hu
          rcases List.mem_append.mp ha with h | h
          · exact hfresh a (List.mem_append_left _ h) u (List.mem_cons_of_mem _ hu)
          · exact hfresh a (List.mem_append_right _ (List.mem_cons_of_mem _ h)) u
              (List.mem_cons_of_mem _ hu)
      simp [run_rate_calls, hstep, hnext, rate_expected, hc]

theorem str_starts_iff (pre : Str) :
    ∀ hay : Str, str_starts hay pre = true ↔ ∃ t, hay = pre ++ t := by
  induction pre with
  | nil =>
    intro hay
    constructor
    · intro _; exact ⟨hay, rfl⟩
    · intro _; cases hay <;> rfl
  | cons d ds ih =>
    intro hay
    cases hay with
    | nil =>
      constructor
      · intro h; exact absurd h (by simp [str_starts])
      · rintro ⟨t, ht⟩; exact absurd ht (by simp)
    | cons c cs =>
      constructor
      · intro h
        simp only [str_starts, Bool.and_eq_true, decide_eq_true_eq] at h
        obtain ⟨hcd, hrest⟩ := h
        obtain ⟨t, ht⟩ := (ih cs).mp hrest
        exact ⟨t, by simp [hcd, ht]⟩
      · rintro ⟨t, ht⟩
        simp only [List.cons_append, List.cons.injEq] at ht
        simp only [str_starts, Bool.and_eq_true, decide_eq_true_eq]
        exact ⟨ht.1, (ih cs).mpr ⟨t, ht.2⟩⟩

theorem str_has_iff (needle : Str) :
    ∀ hay : Str, str_has hay needle = true ↔ ∃ a b, hay = a ++ needle ++ b := by
  intro hay
  induction hay with
  | nil =>
    cases needle with
    | nil =>
      constructor
      · intro _; exact ⟨[], [], rfl⟩
      · intro _; rfl
    | cons x xs =>
      constructor
      · intro h; exact absurd h (by simp [str_has, str_starts])
      · rintro ⟨a, b, h⟩
        rcases a with _ | ⟨a0, as⟩ <;> simp at h
  | cons c cs ih =>
    simp only [str_has, Bool.or_eq_true, str_starts_iff, ih]
    constructor
    · rintro (⟨t, ht⟩ | ⟨a, b, h⟩)
      · exact ⟨[], t, by simp [ht]⟩
      · exact ⟨c :: a, b, by simp [h]⟩
    · rintro ⟨a, b, h⟩
      cases a with
      | nil => exact Or.inl ⟨b, by simpa using h⟩
      | cons a0 as =>
        simp only [List.cons_append, List.cons.injEq] at h
        exact Or.inr ⟨as, b, h.2⟩

theorem join_nl_length :
    ∀ lines : List Str, (join_nl lines).length = (lines.map List.length).sum + (lines.length - 1) := by
  intro lines
  induction lines with
  | nil => simp [join_nl, join_sep]
  | cons s rest ih =>
    cases rest with
    | nil => simp [join_nl, join_sep]
    | cons t more =>
      have hnl : (str "\n").length = 1 := rfl
      simp only [join_nl, join_sep] at ih ⊢
      simp only [List.length_append, List.map_cons, List.sum_cons, List.length_cons, hnl] at ih ⊢
      omega

theorem join_nl_mem_le :
    ∀ (lines : List Str) (s : Str), s ∈ lines → s.length ≤ (join_nl lines).length := by
  intro lines
  induction lines with
  | nil => intro s h; simp at h
  | cons a rest ih =>
    intro s hs
    cases rest with
    | nil =>
      have hsa : s = a := by simpa using hs
      subst hsa
      exact Nat.le_refl _
    | cons b more =>
      have hstep : (join_nl (a :: b :: more)).length =
          a.length + 1 + (join_nl (b :: more)).length := by
        have hnl : (str "\n").length = 1 := rfl
        simp only [join_nl, join_sep, List.length_append, hnl]
      rcases List.mem_cons.mp hs with hsa | hmem
      · subst hsa; omega
      · have := ih s hmem
        omega

/-- Claim C1: the cache key for `community_search` does NOT cover the
output format.  The structured-format and readable-format variants of one
query differ only in `response_format`, yet `get_cache_key` receives only
`language`, `topic`, `goal` and `current_setup` (lines 850-856) and
therefore produces the same key string - and md5 of equal strings is equal,
so the two requests share one cache slot.  This refutes the claimed key
distinctness and exhibits the latent bug the spec flags. -/
theorem cache_key_ignores_response_format :
    c1_markdown_query.response_format ≠ c1_json_query.response_format ∧
    c1_markdown_query.language = c1_json_query.language ∧
    c1_markdown_query.topic = c1_json_query.topic ∧
    c1_markdown_query.goal = c1_json_query.goal ∧
    c1_markdown_query.current_setup = c1_json_query.current_setup ∧
    community_search_cache_key c1_markdown_query =
      community_search_cache_key c1_json_query :=
  ⟨by decide, rfl, rfl, rfl, rfl, rfl⟩

/-- Claim C5: on each admission check the rate limiter first prunes the
window (keeping timestamps `t` with `now - t < 60`), then admits - appending
`now` - exactly when fewer than 10 timestamps remain, and a rejected call
records nothing; consequently, starting from an empty window, of 11 calls
all lying within one sliding 60-second window the first 10 are admitted and
the 11th is rejected. -/
theorem rate_limiter_sliding_window :
    (∀ (tracker : RateTracker) (now : Int) (tool_name : Str),
      ((check_rate_limit tracker now tool_name).1 = true ↔
        (((dict_get tracker tool_name).getD []).filter
          (fun t => now - t < RATE_LIMIT_WINDOW)).length < RATE_LIMIT_MAX_CALLS) ∧
      check_rate_limit tracker now tool_name =
        (decide ((((dict_get tracker tool_name).getD []).filter
            (fun t => now - t < RATE_LIMIT_WINDOW)).length < RATE_LIMIT_MAX_CALLS),
         dict_set tracker tool_name
           (if (((dict_get tracker tool_name).getD []).filter
               (fun t => now - t < RATE_LIMIT_WINDOW)).length < RATE_LIMIT_MAX_CALLS
            then (((dict_get tracker tool_name).getD []).filter
               (fun t => now - t < RATE_LIMIT_WINDOW)) ++ [now]
            else (((dict_get tracker tool_name).getD []).filter
               (fun t => now - t < RATE_LIMIT_WINDOW))))) ∧
    (∀ (times : List Int) (tracker : RateTracker) (tool_name : Str),
      dict_get tracker tool_name = none →
      times.length = 11 →
      (∀ t ∈ times, ∀ u ∈ times, u - t < RATE_LIMIT_WINDOW) →
      (run_rate_calls tool_name times tracker).1 =
        List.replicate 10 true ++ [false]) := by
  constructor
  · intro tracker now tool_name
    constructor
    · by_cases h : (((dict_get tracker tool_name).getD []).filter
          (fun t => now - t < RATE_LIMIT_WINDOW)).length < RATE_LIMIT_MAX_CALLS
      · simp [check_rate_limit, Nat.not_le.mpr h, h]
      · simp [check_rate_limit, Nat.le_of_not_lt h, h]
    · by_cases h : (((dict_get tracker tool_name).getD []).filter
          (fun t => now - t < RATE_LIMIT_WINDOW)).length < RATE_LIMIT_MAX_CALLS
      · simp [check_rate_limit, Nat.not_le.mpr h, h]
      · simp [check_rate_limit, Nat.le_of_not_lt h, h]
  · intro times tracker tool_name hnone hlen hfresh
    have h := run_rate_calls_fresh tool_name times tracker [] (by simp [hnone])
      (by intro t ht u hu
          exact hfresh t (by simpa using ht) u hu)
    rw [h, hlen]
    decide

/-- Witness for C5: eleven calls at times 0..10 (all within one 60-second
window) starting from an empty tracker: ten admissions then a rejection. -/
theorem rate_limiter_sliding_window_witness :
    (run_rate_calls (str "community_search")
        [0, 1, 2, 3, 4, 5, 6, 7, 8, 9, 10] []).1 =
      List.replicate 10 true ++ [false] :=
  rate_limiter_sliding_window.2
    [0, 1, 2, 3, 4, 5, 6, 7, 8, 9, 10] [] (str "community_search")
    rfl rfl (by decide)

/-- Claim C6: the aggregator isolates per-backend failures - each source's
list depends only on that backend's own outcome, with a raised exception
replaced by an empty list (so no exception escapes, the function being
total) - and when three backends throw while one returns two results, the
aggregate has exactly one source with two entries and three empty sources. -/
theorem aggregate_search_results_isolates :
    (∀ o : BackendOutcomes,
      aggregate_search_results o =
        { stackoverflow := backend_result_list o.stackoverflow,
          github := backend_result_list o.github,
          reddit := backend_result_list o.reddit,
          hackernews := backend_result_list o.hackernews }) ∧
    (∀ (e₁ e₂ e₃ : Str) (r₁ r₂ : SourceResult),
      aggregate_search_results
          { stackoverflow := .error e₁, github := .ok [r₁, r₂],
            reddit := .error e₂, hackernews := .error e₃ } =
        { stackoverflow := [], github := [r₁, r₂], reddit := [], hackernews := [] } ∧
      total_results (aggregate_search_results
          { stackoverflow := .error e₁, github := .ok [r₁, r₂],
            reddit := .error e₂, hackernews := .error e₃ }) = 2) := by
  exact ⟨fun o => rfl, fun e₁ e₂ e₃ r₁ r₂ => ⟨rfl, rfl⟩⟩

/-- Claim C8: cache round-trip and lazy expiry.  A `put` followed by a
`get` within the TTL returns exactly the stored payload and leaves the
cache untouched; once `now - createdAt ≥ TTL` the `get` reports a miss and
the entry is gone from the resulting cache. -/
theorem cache_roundtrip_and_expiry (cache : Cache) (t t' : Int)
    (cache_key : Str) (payload : Str) :
    (t' - t < CACHE_TTL_SECONDS →
      get_cached_result (set_cached_result cache t cache_key payload) t' cache_key =
        (some payload, set_cached_result cache t cache_key payload)) ∧
    (CACHE_TTL_SECONDS ≤ t' - t →
      (get_cached_result (set_cached_result cache t cache_key payload) t' cache_key).1 =
        none ∧
      dict_get (get_cached_result (set_cached_result cache t cache_key payload)
          t' cache_key).2 cache_key = none) := by
  have hget : dict_get (set_cached_result cache t cache_key payload) cache_key =
      some { result := payload, timestamp := t } := dict_get_set_self _ _ _
  constructor
  · intro hfresh
    simp [get_cached_result, hget, hfresh]
  · intro hstale
    have hnot : ¬ (t' - t < CACHE_TTL_SECONDS) := not_lt.mpr hstale
    have hdel : get_cached_result (set_cached_result cache t cache_key payload) t' cache_key =
        (none, dict_del (set_cached_result cache t cache_key payload) cache_key) := by
      simp [get_cached_result, hget, hnot]
    rw [hdel]
    exact ⟨rfl, dict_get_del_self _ _⟩

/-- Witness for C8: a concrete round-trip at times 0 and 1 (fresh) and a
lazy expiry at time 3600. -/
theorem cache_roundtrip_and_expiry_witness :
    get_cached_result (set_cached_result [] 0 (str "k") (str "p")) 1 (str "k") =
      (some (str "p"), set_cached_result [] 0 (str "k") (str "p")) ∧
    (get_cached_result (set_cached_result [] 0 (str "k") (str "p")) 3600 (str "k")).1 =
      none ∧
    dict_get (get_cached_result (set_cached_result [] 0 (str "k") (str "p"))
        3600 (str "k")).2 (str "k") = none :=
  ⟨(cache_roundtrip_and_expiry [] 0 1 (str "k") (str "p")).1 (by decide),
   (cache_roundtrip_and_expiry [] 0 3600 (str "k") (str "p")).2 (by decide)⟩

/-- Claim C7, counterexample: `"pip install"` is a topic of 11 (≥ 10)
characters containing the specific, non-vague term `"pip"` (a word of the
topic that is not in the vagueness list and contains no vague term), yet
the validator rejects it, because `"install"` occurs as a substring and the
topic has only two words.  This refutes both the claimed word-level
matching and the claimed acceptance of every ≥10-character topic with a
non-vague specific term. -/
theorem validate_topic_specificity_counterexample :
    (str "pip install").length = 11 ∧
    str "pip" ∈ pySplit (pyLower (pyStrip (str "pip install"))) ∧
    str "pip" ∉ vague_terms ∧
    vague_terms.all (fun term => ! str_has (str "pip") term) = true ∧
    validate_topic_specificity (str "pip install") =
      .error (vague_topic_message (str "pip install")) := by
  refine ⟨rfl, by decide, by decide, by decide, ?_⟩
  rfl

/-- Claim C7, amended: the validator rejects a topic exactly when, after
stripping, it has at most two words AND at least one vague term occurs as a
SUBSTRING of the lowercased topic (Python `term in v.lower()`, not a
word-level match); otherwise it accepts and returns the stripped topic.  A
topic of ≥ 10 characters containing a specific term can therefore still be
rejected when a vague term occurs inside it. -/
theorem validate_topic_specificity_characterization (v : Str) :
    (((pySplit (pyLower (pyStrip v))).length ≤ 2 ∧
        ∃ term ∈ vague_terms, ∃ a b, pyLower (pyStrip v) = a ++ term ++ b) →
      validate_topic_specificity v = .error (vague_topic_message (pyStrip v))) ∧
    (¬ ((pySplit (pyLower (pyStrip v))).length ≤ 2 ∧
        ∃ term ∈ vague_terms, ∃ a b, pyLower (pyStrip v) = a ++ term ++ b) →
      validate_topic_specificity v = .ok (pyStrip v)) := by
  have hiff : ((pySplit (pyLower (pyStrip v))).length ≤ 2 ∧
      vague_terms.any (fun term => str_has (pyLower (pyStrip v)) term) = true) ↔
      ((pySplit (pyLower (pyStrip v))).length ≤ 2 ∧
        ∃ term ∈ vague_terms, ∃ a b, pyLower (pyStrip v) = a ++ term ++ b) := by
    constructor
    · rintro ⟨h1, h2⟩
      obtain ⟨term, hterm, hhas⟩ := List.any_eq_true.mp h2
      exact ⟨h1, term, hterm, (str_has_iff term _).mp hhas⟩
    · rintro ⟨h1, term, hterm, a, b, hab⟩
      exact ⟨h1, List.any_eq_true.mpr ⟨term, hterm, (str_has_iff term _).mpr ⟨a, b, hab⟩⟩⟩
  constructor
  · intro h
    simp only [validate_topic_specificity]
    rw [if_pos (hiff.mpr h)]
  · intro h
    simp only [validate_topic_specificity]
    rw [if_neg (fun hc => h (hiff.mp hc))]

/-- Witness for the amended C7: the rejection side fires on
`"pip install"` (two words, `"install"` a substring), and the acceptance
side fires on the three-word topic `"FastAPI task queue"`. -/
theorem validate_topic_specificity_characterization_witness :
    validate_topic_specificity (str "pip install") =
      .error (vague_topic_message (pyStrip (str "pip install"))) ∧
    validate_topic_specificity (str "FastAPI task queue") =
      .ok (pyStrip (str "FastAPI task queue")) := by
  constructor
  · exact (validate_topic_specificity_characterization (str "pip install")).1
      ⟨by decide, str "install", by decide, str "pip ", [], by decide⟩
  · exact (validate_topic_specificity_characterization (str "FastAPI task queue")).2
      (fun h => absurd h.1 (by decide))

theorem community_search_rate_limited (p : CommunitySearchInput) (env : CallEnv)
    (cache : Cache) (tracker : RateTracker)
    (h : (check_rate_limit tracker env.tNow (str "community_search")).1 = false) :
    community_search p env cache tracker =
      { payload := rate_limit_payload, cache := cache,
        tracker := (check_rate_limit tracker env.tNow (str "community_search")).2,
        trace := {} } := by
  simp [community_search, h]

theorem community_search_cache_hit (p : CommunitySearchInput) (env : CallEnv)
    (cache : Cache) (tracker : RateTracker) (c : Char) (cs : Str)
    (hrate : (check_rate_limit tracker env.tNow (str "community_search")).1 = true)
    (hhit : (get_cached_result cache env.tGet (community_search_cache_key p)).1 =
      some (c :: cs)) :
    community_search p env cache tracker =
      { payload := c :: cs,
        cache := (get_cached_result cache env.tGet (community_search_cache_key p)).2,
        tracker := (check_rate_limit tracker env.tNow (str "community_search")).2,
        trace := {} } := by
  simp [community_search, hrate, hhit]

theorem community_search_cache_miss (p : CommunitySearchInput) (env : CallEnv)
    (cache : Cache) (tracker : RateTracker)
    (hrate : (check_rate_limit tracker env.tNow (str "community_search")).1 = true)
    (hmiss : (get_cached_result cache env.tGet (community_search_cache_key p)).1 = none) :
    community_search p env cache tracker =
      { payload := (search_retry_loop p env (community_search_cache_key p)
          (List.range MAX_RETRIES)
          (get_cached_result cache env.tGet (community_search_cache_key p)).2 {}).1,
        cache := (search_retry_loop p env (community_search_cache_key p)
          (List.range MAX_RETRIES)
          (get_cached_result cache env.tGet (community_search_cache_key p)).2 {}).2.1,
        tracker := (check_rate_limit tracker env.tNow (str "community_search")).2,
        trace := (search_retry_loop p env (community_search_cache_key p)
          (List.range MAX_RETRIES)
          (get_cached_result cache env.tGet (community_search_cache_key p)).2 {}).2.2 } := by
  simp [community_search, hrate, hmiss]

theorem attempt_body_inject (p : CommunitySearchInput) (keys : ApiKeys) (e : AttemptEnv)
    (cache_key : Str) (cache : Cache) (exc : Str) (h : e.inject = some exc) :
    attempt_body p keys e cache_key cache = .error exc := by
  simp [attempt_body, h]

theorem attempt_body_zero (p : CommunitySearchInput) (keys : ApiKeys) (e : AttemptEnv)
    (cache_key : Str) (cache : Cache)
    (hinj : e.inject = none)
    (hzero : aggregate_search_results e.backends =
      { stackoverflow := [], github := [], reddit := [], hackernews := [] }) :
    attempt_body p keys e cache_key cache =
      .ok (no_results_payload p,
           set_cached_result cache e.tSet cache_key (no_results_payload p), false) := by
  simp [attempt_body, hinj, hzero, total_results]

theorem attempt_body_normal (p : CommunitySearchInput) (keys : ApiKeys) (e : AttemptEnv)
    (cache_key : Str) (cache : Cache)
    (hinj : e.inject = none)
    (htot : total_results (aggregate_search_results e.backends) ≠ 0) :
    attempt_body p keys e cache_key cache =
      .ok (attempt_result p keys e,
           set_cached_result cache e.tSet cache_key (attempt_result p keys e), true) := by
  simp [attempt_body, hinj, htot]

theorem search_retry_loop_first_ok (p : CommunitySearchInput) (env : CallEnv)
    (cache_key : Str) (cache : Cache) (res : Str) (cache' : Cache) (b : Bool)
    (h : attempt_body p env.keys (env.attempts 0) cache_key cache = .ok (res, cache', b)) :
    search_retry_loop p env cache_key (List.range MAX_RETRIES) cache {} =
      (res, cache',
       { attemptsUsed := 1, synthCalls := if b then 1 else 0, sleeps := [] }) := by
  have hr : List.range MAX_RETRIES = [0, 1, 2] := rfl
  rw [hr]
  simp [search_retry_loop, h]

theorem search_retry_loop_all_fail (p : CommunitySearchInput) (env : CallEnv)
    (cache_key : Str) (cache : Cache) (e₀ e₁ e₂ : Str)
    (h₀ : attempt_body p env.keys (env.attempts 0) cache_key cache = .error e₀)
    (h₁ : attempt_body p env.keys (env.attempts 1) cache_key cache = .error e₁)
    (h₂ : attempt_body p env.keys (env.attempts 2) cache_key cache = .error e₂) :
    search_retry_loop p env cache_key (List.range MAX_RETRIES) cache {} =
      (terminal_error_payload e₂, cache,
       { attemptsUsed := 3, synthCalls := 0, sleeps := [1, 2] }) := by
  have hr : List.range MAX_RETRIES = [0, 1, 2] := rfl
  rw [hr]
  simp [search_retry_loop, h₀, h₁, h₂, MAX_RETRIES]

/-- Claim C4: when all four backends return empty lists on the first
attempt, `community_search` short-circuits the retry loop at once - one
attempt entered, no synthesis call, no sleep - returns the "no results"
payload, writes exactly that payload to the cache, and a subsequent
`get_cached_result` within the TTL returns it. -/
theorem zero_results_short_circuit_and_cached (p : CommunitySearchInput) (env : CallEnv)
    (cache : Cache) (tracker : RateTracker)
    (hrate : (check_rate_limit tracker env.tNow (str "community_search")).1 = true)
    (hmiss : (get_cached_result cache env.tGet (community_search_cache_key p)).1 = none)
    (hinj : (env.attempts 0).inject = none)
    (hzero : aggregate_search_results (env.attempts 0).backends =
      { stackoverflow := [], github := [], reddit := [], hackernews := [] }) :
    (community_search p env cache tracker).payload = no_results_payload p ∧
    (community_search p env cache tracker).trace =
      { attemptsUsed := 1, synthCalls := 0, sleeps := [] } ∧
    (community_search p env cache tracker).cache =
      set_cached_result (get_cached_result cache env.tGet (community_search_cache_key p)).2
        (env.attempts 0).tSet (community_search_cache_key p) (no_results_payload p) ∧
    (∀ t' : Int, t' - (env.attempts 0).tSet < CACHE_TTL_SECONDS →
      (get_cached_result (community_search p env cache tracker).cache t'
          (community_search_cache_key p)).1 = some (no_results_payload p)) := by
  have hcs := community_search_cache_miss p env cache tracker hrate hmiss
  have hbody := attempt_body_zero p env.keys (env.attempts 0) (community_search_cache_key p)
      (get_cached_result cache env.tGet (community_search_cache_key p)).2 hinj hzero
  have hloop := search_retry_loop_first_ok p env (community_search_cache_key p)
      (get_cached_result cache env.tGet (community_search_cache_key p)).2 _ _ _ hbody
  rw [hcs, hloop]
  refine ⟨rfl, rfl, rfl, ?_⟩
  intro t' ht'
  simp [get_cached_result, set_cached_result, dict_get_set_self, ht']

/-- Witness for C4: with all backends empty it returns and caches the
"no results" payload, in one attempt without synthesis, and a cache read
one second later returns it. -/
theorem zero_results_short_circuit_and_cached_witness :
    (community_search c2_input c4_env [] []).payload = no_results_payload c2_input ∧
    (community_search c2_input c4_env [] []).trace =
      { attemptsUsed := 1, synthCalls := 0, sleeps := [] } ∧
    (get_cached_result (community_search c2_input c4_env [] []).cache 6
        (community_search_cache_key c2_input)).1 = some (no_results_payload c2_input) := by
  have h := zero_results_short_circuit_and_cached c2_input c4_env [] []
    (by decide) rfl rfl rfl
  exact ⟨h.1, h.2.1, h.2.2.2 6 (by decide)⟩

/-- Claim C2, amended: a provider reply that fails schema parsing does NOT
trigger a retry.  The `json.loads` exception is caught inside
`synthesize_with_llm` (line 576) and converted to an error-annotated dict,
so the attempt completes normally: the error payload is rendered, cached
and returned as the final payload of the first attempt - the retry loop
sees no exception and performs no backoff. -/
theorem synthesis_malformed_returns_payload (p : CommunitySearchInput) (env : CallEnv)
    (cache : Cache) (tracker : RateTracker) (e : Str) (pr : Provider) (api_key : Str)
    (hrate : (check_rate_limit tracker env.tNow (str "community_search")).1 = true)
    (hmiss : (get_cached_result cache env.tGet (community_search_cache_key p)).1 = none)
    (hinj : (env.attempts 0).inject = none)
    (hcall : (env.attempts 0).call_outcome = .error e)
    (hprov : get_available_llm_provider env.keys = some (pr, api_key))
    (htot : total_results (aggregate_search_results (env.attempts 0).backends) ≠ 0) :
    (community_search p env cache tracker).payload =
      apply_truncation p (total_results (aggregate_search_results (env.attempts 0).backends))
        (aggregate_search_results (env.attempts 0).backends)
        { error := some (str "LLM synthesis failed: " ++ e), findings := [] }
        (render_result p (total_results (aggregate_search_results (env.attempts 0).backends))
          (aggregate_search_results (env.attempts 0).backends)
          { error := some (str "LLM synthesis failed: " ++ e), findings := [] }) ∧
    (community_search p env cache tracker).trace =
      { attemptsUsed := 1, synthCalls := 1, sleeps := [] } ∧
    dict_get (community_search p env cache tracker).cache (community_search_cache_key p) =
      some { result := (community_search p env cache tracker).payload,
             timestamp := (env.attempts 0).tSet } := by
  have hsyn : synthesize_with_llm env.keys (env.attempts 0).call_outcome =
      { error := some (str "LLM synthesis failed: " ++ e), findings := [] } := by
    rw [hcall]
    simp [synthesize_with_llm, hprov]
  have hcs := community_search_cache_miss p env cache tracker hrate hmiss
  have hbody := attempt_body_normal p env.keys (env.attempts 0) (community_search_cache_key p)
      (get_cached_result cache env.tGet (community_search_cache_key p)).2 hinj htot
  have hloop := search_retry_loop_first_ok p env (community_search_cache_key p)
      (get_cached_result cache env.tGet (community_search_cache_key p)).2 _ _ _ hbody
  have hres : attempt_result p env.keys (env.attempts 0) =
      apply_truncation p (total_results (aggregate_search_results (env.attempts 0).backends))
        (aggregate_search_results (env.attempts 0).backends)
        { error := some (str "LLM synthesis failed: " ++ e), findings := [] }
        (render_result p (total_results (aggregate_search_results (env.attempts 0).backends))
          (aggregate_search_results (env.attempts 0).backends)
          { error := some (str "LLM synthesis failed: " ++ e), findings := [] }) := by
    simp only [attempt_result, hsyn]
  rw [hcs]
  simp only [hloop]
  refine ⟨hres, rfl, ?_⟩
  simp only [set_cached_result, dict_get_set_self]

set_option maxRecDepth 8000

/-- Claim C2, counterexample to the claim as stated: a concrete call whose
provider reply fails JSON parsing on the first attempt.  The call finishes
after exactly one attempt with no backoff sleep, its returned payload
carries the `LLM synthesis failed` annotation, and the payload is even
written to the cache - the malformed synthesis is returned as the final
payload of the call while two attempts remain, not retried. -/
theorem synthesis_malformed_counterexample :
    (c2_env.attempts 0).call_outcome =
      .error (str "Expecting value: line 1 column 1 (char 0)") ∧
    (community_search c2_input c2_env [] []).trace =
      { attemptsUsed := 1, synthCalls := 1, sleeps := [] } ∧
    str_has (community_search c2_input c2_env [] []).payload
      (str "LLM synthesis failed: Expecting value: line 1 column 1 (char 0)") = true ∧
    dict_get (community_search c2_input c2_env [] []).cache
      (community_search_cache_key c2_input) ≠ none := by
  refine ⟨rfl, by decide, by decide, by decide⟩

/-- Witness for the amended C2 at the concrete malformed-reply scenario. -/
theorem synthesis_malformed_returns_payload_witness :
    (community_search c2_input c2_env [] []).trace =
      { attemptsUsed := 1, synthCalls := 1, sleeps := [] } ∧
    (community_search c2_input c2_env [] []).payload =
      apply_truncation c2_input
        (total_results (aggregate_search_results (c2_env.attempts 0).backends))
        (aggregate_search_results (c2_env.attempts 0).backends)
        { error := some (str "LLM synthesis failed: Expecting value: line 1 column 1 (char 0)"),
          findings := [] }
        (render_result c2_input
          (total_results (aggregate_search_results (c2_env.attempts 0).backends))
          (aggregate_search_results (c2_env.attempts 0).backends)
          { error := some (str "LLM synthesis failed: Expecting value: line 1 column 1 (char 0)"),
            findings := [] }) := by
  have h := synthesis_malformed_returns_payload c2_input c2_env [] []
    (str "Expecting value: line 1 column 1 (char 0)") Provider.gemini (str "test-key")
    (by decide) rfl rfl rfl rfl (by decide)
  exact ⟨h.2.1, h.1⟩

/-- Claim C9: an unhandled exception inside an attempt is caught by the
`except` at line 975; while attempts remain the orchestrator sleeps
`2 ** attempt` seconds (1s after attempt 0, 2s after attempt 1 - the third
attempt is the last, so no further backoff occurs) and re-runs the whole
attempt; after the third failure it returns the terminal error payload and
writes nothing to the cache. -/
theorem retry_backoff_and_terminal_error (p : CommunitySearchInput) (env : CallEnv)
    (cache : Cache) (tracker : RateTracker) (e₀ e₁ e₂ : Str)
    (hrate : (check_rate_limit tracker env.tNow (str "community_search")).1 = true)
    (hmiss : get_cached_result cache env.tGet (community_search_cache_key p) =
      (none, cache))
    (h₀ : (env.attempts 0).inject = some e₀)
    (h₁ : (env.attempts 1).inject = some e₁)
    (h₂ : (env.attempts 2).inject = some e₂) :
    (community_search p env cache tracker).payload = terminal_error_payload e₂ ∧
    (community_search p env cache tracker).trace =
      { attemptsUsed := 3, synthCalls := 0, sleeps := [1, 2] } ∧
    (community_search p env cache tracker).cache = cache := by
  have hmiss1 : (get_cached_result cache env.tGet (community_search_cache_key p)).1 = none := by
    rw [hmiss]
  have hc2 : (get_cached_result cache env.tGet (community_search_cache_key p)).2 = cache := by
    rw [hmiss]
  have hcs := community_search_cache_miss p env cache tracker hrate hmiss1
  have hb₀ := attempt_body_inject p env.keys (env.attempts 0) (community_search_cache_key p)
      (get_cached_result cache env.tGet (community_search_cache_key p)).2 e₀ h₀
  have hb₁ := attempt_body_inject p env.keys (env.attempts 1) (community_search_cache_key p)
      (get_cached_result cache env.tGet (community_search_cache_key p)).2 e₁ h₁
  have hb₂ := attempt_body_inject p env.keys (env.attempts 2) (community_search_cache_key p)
      (get_cached_result cache env.tGet (community_search_cache_key p)).2 e₂ h₂
  have hloop := search_retry_loop_all_fail p env (community_search_cache_key p)
      (get_cached_result cache env.tGet (community_search_cache_key p)).2 e₀ e₁ e₂ hb₀ hb₁ hb₂
  rw [hcs, hloop, hc2]
  exact ⟨rfl, rfl, rfl⟩

/-- Witness for C9: all three attempts raise; the call returns the terminal
error payload mentioning the third exception, slept 1s then 2s, and the
cache is unchanged (empty). -/
theorem retry_backoff_and_terminal_error_witness :
    (community_search c2_input c9_env [] []).payload =
      terminal_error_payload (str "boom " ++ natStr 2) ∧
    (community_search c2_input c9_env [] []).trace =
      { attemptsUsed := 3, synthCalls := 0, sleeps := [1, 2] } ∧
    (community_search c2_input c9_env [] []).cache = [] := by
  exact retry_backoff_and_terminal_error c2_input c9_env [] []
    (str "boom " ++ natStr 0) (str "boom " ++ natStr 1) (str "boom " ++ natStr 2)
    (by decide) rfl rfl rfl rfl

/-- Claim C10: the rate budget is consumed before the cache is consulted.
A rejected call returns the rate-limit payload without touching the cache -
even when a fresh cached payload exists - and without recording a
timestamp; an admitted call records its timestamp in the window (the
pruned window plus `now`) and, on a fresh cache hit, returns the cached
payload with the cache unchanged and no attempt entered. -/
theorem rate_budget_consumed_before_cache :
    (∀ (p : CommunitySearchInput) (env : CallEnv) (cache : Cache) (tracker : RateTracker),
      (check_rate_limit tracker env.tNow (str "community_search")).1 = false →
      community_search p env cache tracker =
        { payload := rate_limit_payload, cache := cache,
          tracker := (check_rate_limit tracker env.tNow (str "community_search")).2,
          trace := {} }) ∧
    (∀ (tracker : RateTracker) (now : Int) (tool_name : Str),
      (check_rate_limit tracker now tool_name).1 = true →
      dict_get (check_rate_limit tracker now tool_name).2 tool_name =
        some ((((dict_get tracker tool_name).getD []).filter
            (fun t => now - t < RATE_LIMIT_WINDOW)) ++ [now])) ∧
    (∀ (p : CommunitySearchInput) (env : CallEnv) (cache : Cache) (tracker : RateTracker)
        (c : Char) (cs : Str),
      (check_rate_limit tracker env.tNow (str "community_search")).1 = true →
      get_cached_result cache env.tGet (community_search_cache_key p) =
        (some (c :: cs), cache) →
      community_search p env cache tracker =
        { payload := c :: cs, cache := cache,
          tracker := (check_rate_limit tracker env.tNow (str "community_search")).2,
          trace := {} }) := by
  refine ⟨?_, ?_, ?_⟩
  · intro p env cache tracker h
    exact community_search_rate_limited p env cache tracker h
  · intro tracker now tool_name h
    by_cases hc : RATE_LIMIT_MAX_CALLS ≤
        (((dict_get tracker tool_name).getD []).filter
          (fun t => now - t < RATE_LIMIT_WINDOW)).length
    · simp [check_rate_limit, hc] at h
    · simp [check_rate_limit, hc, dict_get_set_self]
  · intro p env cache tracker c cs hrate hhit
    have hhit1 : (get_cached_result cache env.tGet (community_search_cache_key p)).1 =
        some (c :: cs) := by rw [hhit]
    have hhit2 : (get_cached_result cache env.tGet (community_search_cache_key p)).2 =
        cache := by rw [hhit]
    have h := community_search_cache_hit p env cache tracker c cs hrate hhit1
    rw [hhit2] at h
    exact h

/-- Witness for C10: with ten fresh timestamps in the window and a fresh
cached payload, the call is rejected with the cache untouched; with an
empty window the call is admitted, its timestamp is recorded, and the
cached payload is returned verbatim with the cache unchanged. -/
theorem rate_budget_consumed_before_cache_witness :
    community_search c2_input c10_env c10_cache c10_full_tracker =
      { payload := rate_limit_payload, cache := c10_cache,
        tracker := (check_rate_limit c10_full_tracker c10_env.tNow
          (str "community_search")).2,
        trace := {} } ∧
    community_search c2_input c10_env c10_cache [] =
      { payload := str "cached payload", cache := c10_cache,
        tracker := (check_rate_limit [] c10_env.tNow (str "community_search")).2,
        trace := {} } ∧
    dict_get (check_rate_limit [] c10_env.tNow (str "community_search")).2
      (str "community_search") = some [c10_env.tNow] := by
  refine ⟨?_, ?_, ?_⟩
  · exact rate_budget_consumed_before_cache.1 c2_input c10_env c10_cache c10_full_tracker
      (by decide)
  · exact rate_budget_consumed_before_cache.2.2 c2_input c10_env c10_cache []
      'c' (str "ached payload") (by decide) (by decide)
  · have h := rate_budget_consumed_before_cache.2.1 [] c10_env.tNow
      (str "community_search") (by decide)
    simp only [dict_get, Option.getD_none, List.filter_nil, List.nil_append] at h
    exact h

/-- Claim C3, amended: a payload rendered by an orchestration attempt goes
through the size-limit step at most once (the normal attempt path returns
exactly `apply_truncation` of the rendered string); in readable (markdown)
mode an oversized payload is hard-truncated at the 25,000-character
boundary AND the fixed 73-character notice is appended, so the final
length is bounded by 25,073 - not by 25,000 as claimed; in structured
(JSON) mode the finding list is cut to `max(1, n // 2)` findings,
re-serialized with `truncated=true` and the before/after message (at least
one finding retained whenever any were present), with no character bound
at all. -/
theorem truncation_policy (p : CommunitySearchInput) (total : Nat) (sr : SearchResults)
    (syn : SynthParsed) (result : Str) :
    (p.response_format = ResponseFormat.markdown →
      (apply_truncation p total sr syn result).length ≤
        CHARACTER_LIMIT + trunc_notice.length ∧
      trunc_notice.length = 73 ∧
      (CHARACTER_LIMIT < result.length →
        apply_truncation p total sr syn result =
          result.take CHARACTER_LIMIT ++ trunc_notice)) ∧
    (p.response_format = ResponseFormat.json →
      CHARACTER_LIMIT < result.length →
      apply_truncation p total sr syn result =
        dump_truncated_response p total sr syn
          (syn.findings.take (max 1 (syn.findings.length / 2))) ∧
      (syn.findings ≠ [] →
        syn.findings.take (max 1 (syn.findings.length / 2)) ≠ [])) ∧
    (∀ (env : CallEnv) (cache : Cache) (tracker : RateTracker),
      (check_rate_limit tracker env.tNow (str "community_search")).1 = true →
      (get_cached_result cache env.tGet (community_search_cache_key p)).1 = none →
      (env.attempts 0).inject = none →
      total_results (aggregate_search_results (env.attempts 0).backends) ≠ 0 →
      (community_search p env cache tracker).payload =
        apply_truncation p
          (total_results (aggregate_search_results (env.attempts 0).backends))
          (aggregate_search_results (env.attempts 0).backends)
          (synthesize_with_llm env.keys (env.attempts 0).call_outcome)
          (render_result p
            (total_results (aggregate_search_results (env.attempts 0).backends))
            (aggregate_search_results (env.attempts 0).backends)
            (synthesize_with_llm env.keys (env.attempts 0).call_outcome))) := by
  refine ⟨?_, ?_, ?_⟩
  · intro hfmt
    by_cases hlen : CHARACTER_LIMIT < result.length
    · have heq : apply_truncation p total sr syn result =
          result.take CHARACTER_LIMIT ++ trunc_notice := by
        unfold apply_truncation
        rw [if_pos hlen, hfmt]
      refine ⟨?_, rfl, fun _ => heq⟩
      rw [heq]
      simp only [List.length_append, List.length_take]
      omega
    · have heq : apply_truncation p total sr syn result = result := by
        unfold apply_truncation
        rw [if_neg hlen]
      refine ⟨?_, rfl, fun hc => absurd hc hlen⟩
      rw [heq]
      omega
  · intro hfmt hlen
    constructor
    · unfold apply_truncation
      rw [if_pos hlen, hfmt]
    · intro hne hcontra
      have h2 : 0 < syn.findings.length := List.length_pos.mpr hne
      have hlen0 := congrArg List.length hcontra
      simp only [List.length_take, List.length_nil] at hlen0
      have h1 : 1 ≤ max 1 (syn.findings.length / 2) := le_max_left _ _
      omega
  · intro env cache tracker hrate hmiss hinj htot
    have hcs := community_search_cache_miss p env cache tracker hrate hmiss
    have hbody := attempt_body_normal p env.keys (env.attempts 0)
        (community_search_cache_key p)
        (get_cached_result cache env.tGet (community_search_cache_key p)).2 hinj htot
    have hloop := search_retry_loop_first_ok p env (community_search_cache_key p)
        (get_cached_result cache env.tGet (community_search_cache_key p)).2 _ _ _ hbody
    rw [hcs, hloop]
    rfl

/-- Witness for the amended C3: a 25,001-character rendered string in
markdown mode is cut at the boundary with the notice appended; the same
oversized string in JSON mode with one finding is re-serialized with the
findings list cut to `max(1, 1 // 2) = 1` finding; and the concrete
malformed-free call of `c3_env` returns exactly the once-truncated
rendering. -/
theorem truncation_policy_witness :
    apply_truncation c2_input 1
        { stackoverflow := [], github := [], reddit := [], hackernews := [] } {}
        (List.replicate 25001 'a') =
      (List.replicate 25001 'a' : Str).take CHARACTER_LIMIT ++ trunc_notice ∧
    apply_truncation c1_json_query 1
        { stackoverflow := [], github := [], reddit := [], hackernews := [] } c3_parsed
        (List.replicate 25001 'a') =
      dump_truncated_response c1_json_query 1
        { stackoverflow := [], github := [], reddit := [], hackernews := [] } c3_parsed
        (c3_parsed.findings.take (max 1 (c3_parsed.findings.length / 2))) ∧
    (community_search c2_input c3_env [] []).payload =
      apply_truncation c2_input
        (total_results (aggregate_search_results (c3_env.attempts 0).backends))
        (aggregate_search_results (c3_env.attempts 0).backends)
        (synthesize_with_llm c3_env.keys (c3_env.attempts 0).call_outcome)
        (render_result c2_input
          (total_results (aggregate_search_results (c3_env.attempts 0).backends))
          (aggregate_search_results (c3_env.attempts 0).backends)
          (synthesize_with_llm c3_env.keys (c3_env.attempts 0).call_outcome)) := by
  have hbig : CHARACTER_LIMIT < (List.replicate 25001 'a' : Str).length := by
    rw [List.length_replicate]
    decide
  refine ⟨?_, ?_, ?_⟩
  · exact ((truncation_policy c2_input 1
      { stackoverflow := [], github := [], reddit := [], hackernews := [] } {}
      (List.replicate 25001 'a')).1 rfl).2.2 hbig
  · exact ((truncation_policy c1_json_query 1
      { stackoverflow := [], github := [], reddit := [], hackernews := [] } c3_parsed
      (List.replicate 25001 'a')).2.1 rfl hbig).1
  · exact (truncation_policy c2_input 1
      { stackoverflow := [], github := [], reddit := [], hackernews := [] } {}
      []).2.2 c3_env [] [] (by decide) rfl rfl (by decide)

/-- Claim C3, counterexample to the claimed 25,000-character bound: with a
single well-formed finding whose solution field is 26,000 characters long,
the markdown-mode call returns a payload strictly longer than 25,000
characters (the hard truncation cuts at 25,000 and then appends the
73-character notice, giving 25,073). -/
theorem oversized_markdown_payload_exceeds_limit :
    CHARACTER_LIMIT < (community_search c2_input c3_env [] []).payload.length := by
  have hrate : (check_rate_limit [] c3_env.tNow (str "community_search")).1 = true := by
    decide
  have hmiss : (get_cached_result [] c3_env.tGet
      (community_search_cache_key c2_input)).1 = none := rfl
  have hcs := community_search_cache_miss c2_input c3_env [] [] hrate hmiss
  have hbody := attempt_body_normal c2_input c3_env.keys (c3_env.attempts 0)
      (community_search_cache_key c2_input)
      (get_cached_result [] c3_env.tGet (community_search_cache_key c2_input)).2
      rfl (by decide)
  have hloop := search_retry_loop_first_ok c2_input c3_env
      (community_search_cache_key c2_input)
      (get_cached_result [] c3_env.tGet (community_search_cache_key c2_input)).2
      _ _ _ hbody
  rw [hcs]
  simp only [hloop]
  have hres : attempt_result c2_input c3_env.keys (c3_env.attempts 0) =
      apply_truncation c2_input 1
        { stackoverflow := [example_source], github := [], reddit := [], hackernews := [] }
        c3_parsed
        (render_markdown c2_input
          { stackoverflow := [example_source], github := [], reddit := [], hackernews := [] }
          c3_parsed) := rfl
  rw [hres]
  have hsol : c3_big_solution.length = 26000 := by
    show (List.replicate 26000 'a').length = 26000
    rw [List.length_replicate]
  have hrm : render_markdown c2_input
      { stackoverflow := [example_source], github := [], reddit := [], hackernews := [] }
      c3_parsed = join_nl c3_lines := rfl
  have hmem : c3_big_solution ∈ c3_lines :=
    List.mem_cons_of_mem _ (List.mem_cons_of_mem _ (List.mem_cons_of_mem _
      (List.mem_cons_of_mem _ (List.mem_cons_of_mem _ (List.mem_cons_of_mem _
        (List.mem_cons_of_mem _ (List.mem_cons_of_mem _ (List.mem_cons_of_mem _
          (List.mem_cons_of_mem _ (List.mem_cons_of_mem _ (List.mem_cons_of_mem _
            (List.mem_cons_self _ _))))))))))))
  have hge := join_nl_mem_le c3_lines c3_big_solution hmem
  have hCL : CHARACTER_LIMIT = 25000 := rfl
  have hR : CHARACTER_LIMIT <
      (render_markdown c2_input
        { stackoverflow := [example_source], github := [], reddit := [], hackernews := [] }
        c3_parsed).length := by
    rw [hrm, hCL]
    omega
  have htrunc : apply_truncation c2_input 1
      { stackoverflow := [example_source], github := [], reddit := [], hackernews := [] }
      c3_parsed
      (render_markdown c2_input
        { stackoverflow := [example_source], github := [], reddit := [], hackernews := [] }
        c3_parsed) =
      (render_markdown c2_input
        { stackoverflow := [example_source], github := [], reddit := [], hackernews := [] }
        c3_parsed).take CHARACTER_LIMIT ++ trunc_notice := by
    unfold apply_truncation
    rw [if_pos hR]
    rfl
  rw [htrunc]
  have h73 : trunc_notice.length = 73 := rfl
  rw [List.length_append, List.length_take, h73, hCL]
  rw [hCL] at hR
  omega

end CommunityResearch
